import Mathlib

/-!
Shallow embedding of `bucket.py` (terminal client for a remote record store):
the reconciliation engine (`read_entry`, `edit_transactions`, `edit_categories`)
and the taxonomy resolver (`select_category`, `select_subcategory`,
`add_category`, `add_subcategory`), together with proofs about the claims of
the specification.

Modelling conventions:
- Python strings are Lean `String`s; `str.strip()` is `pyStrip`, `str.lower()`
  is `pyLower`, `int(...)` on a stripped string is `pyParseInt`.
- The HTTP transport is the environment: a fetch is given as its resulting
  `(status, body)` pair, a PUT/POST as its resulting status/body or a flag
  saying the call raised.
- User input (`input(...)`) and remote add-call results are consumed from
  explicit streams; the unbounded re-prompt loops take a fuel parameter and
  return `none` when fuel or streams run out (the Python program would simply
  keep looping / raise EOFError there).
- Observable effects (temp-file creation/deletion, editor launch, PUT calls,
  confirmation prompts, remote create calls, user prompts) are recorded in
  logs, most recent first.
-/

namespace Bucket

/-- Whitespace characters stripped by Python `str.strip()` (ASCII range). -/
def isPySpace (c : Char) : Bool :=
  c = ' ' || c = '\t' || c = '\n' || c = '\r' || c = '\x0b' || c = '\x0c'

/-- Python `str.strip()`: remove leading and trailing whitespace. -/
def pyStrip (s : String) : String :=
  String.mk (((s.toList.dropWhile isPySpace).reverse.dropWhile isPySpace).reverse)

/-- Python `str.lower()` (ASCII case mapping). -/
def pyLower (s : String) : String :=
  String.mk (s.toList.map Char.toLower)

/-- Numeric value of a digit list. -/
def digitsVal (l : List Char) : Int :=
  l.foldl (fun a c => a * 10 + ((c.toNat : Int) - 48)) 0

/-- Python `int(...)` applied to an already-stripped string: an optional sign
followed by at least one digit; anything else raises `ValueError` (`none`). -/
def pyParseInt (s : String) : Option Int :=
  match s.toList with
  | [] => none
  | '+' :: rest =>
      if rest ≠ [] ∧ rest.all Char.isDigit then some (digitsVal rest) else none
  | '-' :: rest =>
      if rest ≠ [] ∧ rest.all Char.isDigit then some (-(digitsVal rest)) else none
  | l => if l.all Char.isDigit then some (digitsVal l) else none

/-! ## JSON values and `json.dumps(..., indent=2)` (used by `edit_categories`) -/

/-- JSON values, as returned by `response.json()`. Numbers are modelled as
integers (the category tree holds only strings, arrays and objects). -/
inductive Json where
  | null : Json
  | bool (b : Bool) : Json
  | num (n : Int) : Json
  | str (s : String) : Json
  | arr (xs : List Json) : Json
  | obj (fields : List (String × Json)) : Json
deriving Repr

/-- Escaping of one character inside a JSON string literal. -/
def jsonEscapeChar (c : Char) : String :=
  if c = '"' then "\\\""
  else if c = '\\' then "\\\\"
  else if c = '\n' then "\\n"
  else if c = '\t' then "\\t"
  else if c = '\r' then "\\r"
  else String.singleton c

/-- Escaping of a JSON string literal body. -/
def jsonEscape (s : String) : String :=
  String.join (s.toList.map jsonEscapeChar)

/-- A run of `n` spaces. -/
def spaces (n : Nat) : String :=
  String.mk (List.replicate n ' ')

mutual

/-- Python `json.dumps(v, indent=2)` at nesting depth `d` (the indent of the
closing bracket is `d` spaces, members are indented `d + 2`). -/
def Json.dumps (d : Nat) : Json → String
  | .null => "null"
  | .bool true => "true"
  | .bool false => "false"
  | .num n => toString n
  | .str s => "\"" ++ jsonEscape s ++ "\""
  | .arr [] => "[]"
  | .arr (x :: xs) =>
      "[\n" ++ Json.dumpsArr (d + 2) x xs ++ "\n" ++ spaces d ++ "]"
  | .obj [] => "\x7b\x7d"
  | .obj (f :: fs) =>
      "\x7b\n" ++ Json.dumpsObj (d + 2) f fs ++ "\n" ++ spaces d ++ "\x7d"
termination_by j => sizeOf j

/-- The comma-and-newline separated members of a JSON array. -/
def Json.dumpsArr (d : Nat) : Json → List Json → String
  | x, [] => spaces d ++ Json.dumps d x
  | x, y :: ys => spaces d ++ Json.dumps d x ++ ",\n" ++ Json.dumpsArr d y ys
termination_by x xs => sizeOf (x :: xs)

/-- The comma-and-newline separated members of a JSON object. -/
def Json.dumpsObj (d : Nat) : (String × Json) → List (String × Json) → String
  | (k, v), [] => spaces d ++ "\"" ++ jsonEscape k ++ "\": " ++ Json.dumps d v
  | (k, v), f :: fs =>
      spaces d ++ "\"" ++ jsonEscape k ++ "\": " ++ Json.dumps d v ++ ",\n" ++
        Json.dumpsObj d f fs
termination_by f fs => sizeOf (f :: fs)

end

/-! ## The reconciliation engine -/

/-- Body of a PUT replace call: `read_entry` sends a JSON object with fields
`type` and `content`; `edit_transactions` and `edit_categories` send an object
with the single field `content`. -/
inductive Payload where
  | typeContent (ty : String) (content : String) : Payload
  | contentOnly (content : String) : Payload
deriving Repr, DecidableEq

/-- Observable events of one reconciliation run, in chronological order. -/
inductive Ev where
  | tmpCreate : Ev
  | tmpDelete : Ev
  | launchEditor : Ev
  | promptConfirm : Ev
  | putCall (p : Payload) : Ev
deriving Repr, DecidableEq

/-- Result of a reconciliation run, as printed to the user. `editFailure`
stands for the outer `except Exception` handler (any exception raised while
creating/seeding the temp file, launching the editor, reading the file back,
or issuing the PUT). -/
inductive Outcome where
  | fetchFailure (status : Nat) (body : String) : Outcome
  | noChange : Outcome
  | discarded : Outcome
  | pushed (status : Nat) (body : String) : Outcome
  | editFailure : Outcome
deriving Repr, DecidableEq

/-- Fate of `tempfile.NamedTemporaryFile(...)` and the seeding write:
`createFail` - opening the temp file raised (no file on disk); `writeFail` -
the file was created but writing the original content to it raised; `ok` -
both succeeded. -/
inductive TmpSeed where
  | createFail : TmpSeed
  | writeFail : TmpSeed
  | ok : TmpSeed
deriving Repr, DecidableEq

/-- Environment of one reconciliation run: everything the outside world
(file system, editor, user, server) decides. `editResult = some raw` means
the editor session ended and the temp file read back as `raw`;
`editResult = none` means the editor launch or the read-back raised. -/
structure EditEnv where
  seed : TmpSeed
  editResult : Option String
  confirmInput : String
  putRaises : Bool
  putStatus : Nat
  putBody : String
deriving Repr, DecidableEq

/-- Normalization applied by the engine to the fetched body
(`response.text.strip()`) and to the content read back from the editor
(`f.read().strip()`). -/
def normalizeBody (s : String) : String := pyStrip s

/-- Whether the temp file is still on disk after the run: replay of the
creation/deletion events. -/
def tmpExistsAfter (tr : List Ev) : Bool :=
  tr.foldl (fun b e =>
    match e with
    | .tmpCreate => true
    | .tmpDelete => false
    | _ => b) false

/-- `read_entry` from bucket.py: fetch one record of type `ty`, edit it in the
external editor, and on confirmed change PUT `(type, content)` back. Returns
the printed outcome and the event trace. -/
def read_entry (ty : String) (fetchStatus : Nat) (fetchBody : String)
    (env : EditEnv) : Outcome × List Ev :=
  if fetchStatus ≠ 200 then (.fetchFailure fetchStatus fetchBody, [])
  else
    let original_content := normalizeBody fetchBody
    match env.seed with
    | .createFail => (.editFailure, [])
    | .writeFail => (.editFailure, [.tmpCreate])
    | .ok =>
      match env.editResult with
      | none => (.editFailure, [.tmpCreate, .launchEditor, .tmpDelete])
      | some raw =>
        let new_content := normalizeBody raw
        if original_content ≠ new_content then
          if pyLower (pyStrip env.confirmInput) = "y" then
            if env.putRaises then
              (.editFailure,
                [.tmpCreate, .launchEditor, .promptConfirm,
                  .putCall (.typeContent ty new_content), .tmpDelete])
            else
              (.pushed env.putStatus env.putBody,
                [.tmpCreate, .launchEditor, .promptConfirm,
                  .putCall (.typeContent ty new_content), .tmpDelete])
          else
            (.discarded, [.tmpCreate, .launchEditor, .promptConfirm, .tmpDelete])
        else
          (.noChange, [.tmpCreate, .launchEditor, .tmpDelete])

/-- `edit_transactions` from bucket.py: fetch the whole CSV ledger, edit it,
and on confirmed change PUT `(content)` back. -/
def edit_transactions (fetchStatus : Nat) (fetchBody : String)
    (env : EditEnv) : Outcome × List Ev :=
  if fetchStatus ≠ 200 then (.fetchFailure fetchStatus fetchBody, [])
  else
    let original_content := normalizeBody fetchBody
    match env.seed with
    | .createFail => (.editFailure, [])
    | .writeFail => (.editFailure, [.tmpCreate])
    | .ok =>
      match env.editResult with
      | none => (.editFailure, [.tmpCreate, .launchEditor, .tmpDelete])
      | some raw =>
        let new_content := normalizeBody raw
        if original_content ≠ new_content then
          if pyLower (pyStrip env.confirmInput) = "y" then
            if env.putRaises then
              (.editFailure,
                [.tmpCreate, .launchEditor, .promptConfirm,
                  .putCall (.contentOnly new_content), .tmpDelete])
            else
              (.pushed env.putStatus env.putBody,
                [.tmpCreate, .launchEditor, .promptConfirm,
                  .putCall (.contentOnly new_content), .tmpDelete])
          else
            (.discarded, [.tmpCreate, .launchEditor, .promptConfirm, .tmpDelete])
        else
          (.noChange, [.tmpCreate, .launchEditor, .tmpDelete])

/-- `edit_categories` from bucket.py: fetch the category tree, pretty-print it
with `json.dumps(response.json(), indent=2)` (note: this original content is
not `strip`ped), edit it, and on confirmed change PUT `(content)` back.
`fetchJson = none` models `response.json()` raising on an unparsable body. -/
def edit_categories (fetchStatus : Nat) (fetchText : String)
    (fetchJson : Option Json) (env : EditEnv) : Outcome × List Ev :=
  if fetchStatus ≠ 200 then (.fetchFailure fetchStatus fetchText, [])
  else
    match fetchJson with
    | none => (.editFailure, [])
    | some j =>
      let original_content := Json.dumps 0 j
      match env.seed with
      | .createFail => (.editFailure, [])
      | .writeFail => (.editFailure, [.tmpCreate])
      | .ok =>
        match env.editResult with
        | none => (.editFailure, [.tmpCreate, .launchEditor, .tmpDelete])
        | some raw =>
          let new_content := pyStrip raw
          if original_content ≠ new_content then
            if pyLower (pyStrip env.confirmInput) = "y" then
              if env.putRaises then
                (.editFailure,
                  [.tmpCreate, .launchEditor, .promptConfirm,
                    .putCall (.contentOnly new_content), .tmpDelete])
              else
                (.pushed env.putStatus env.putBody,
                  [.tmpCreate, .launchEditor, .promptConfirm,
                    .putCall (.contentOnly new_content), .tmpDelete])
            else
              (.discarded,
                [.tmpCreate, .launchEditor, .promptConfirm, .tmpDelete])
          else
            (.noChange, [.tmpCreate, .launchEditor, .tmpDelete])

/-! ## The taxonomy resolver -/

/-- The interactive prompts the resolver can show. `selectionMenu` is the
numbered category/subcategory menu; the other two are the "Enter new
... name" prompts. -/
inductive PromptKind where
  | selectionMenu : PromptKind
  | newCategoryName : PromptKind
  | newSubcategoryName : PromptKind
deriving Repr, DecidableEq

/-- Remote create calls issued during resolution, with the success flag the
server reported (`true` iff status 201). -/
inductive RCall where
  | addCategory (category : String) (ok : Bool) : RCall
  | addSubcategory (category : String) (subcategory : String) (ok : Bool) : RCall
deriving Repr, DecidableEq

/-- State of the outside world during resolution: the pending user input
lines, the pending results of remote create calls, and the logs of calls made
and prompts shown (both most recent first). -/
structure World where
  inputs : List String
  replies : List Bool
  calls : List RCall
  prompts : List PromptKind
deriving Repr, DecidableEq

/-- `input(...)` at a prompt of kind `k`: consume the next input line; `none`
models EOF on stdin. -/
def readInput (k : PromptKind) (w : World) : Option (String × World) :=
  match w.inputs with
  | [] => none
  | line :: rest =>
      some (line, { w with inputs := rest, prompts := k :: w.prompts })

/-- `add_category` from bucket.py: POST the new category; the result recorded
in the call log is `true` iff the server answered 201. The next pending reply
decides the status; `none` models an exhausted reply stream. -/
def add_category (category : String) (w : World) : Option (Bool × World) :=
  match w.replies with
  | [] => none
  | ok :: rest =>
      some (ok, { w with replies := rest,
                         calls := .addCategory category ok :: w.calls })

/-- `add_subcategory` from bucket.py: POST the new subcategory under
`category`. -/
def add_subcategory (category subcategory : String) (w : World) :
    Option (Bool × World) :=
  match w.replies with
  | [] => none
  | ok :: rest =>
      some (ok, { w with replies := rest,
                         calls := .addSubcategory category subcategory ok :: w.calls })

/-- The taxonomy snapshot: category name to ordered subcategory names,
insertion-ordered like a Python dict. -/
abbrev Snapshot := List (String × List String)

/-- Python dict assignment `m[k] = v`: replace in place when the key exists,
append otherwise. -/
def dictSet (m : Snapshot) (k : String) (v : List String) : Snapshot :=
  if m.any (fun p => p.1 = k) then
    m.map (fun p => if p.1 = k then (k, v) else p)
  else m ++ [(k, v)]

/-- The category names of a snapshot, in order. -/
def keys (m : Snapshot) : List String := m.map (fun p => p.1)

/-- The inner `while True` loop of `select_category` that prompts for a new
category name until the name is non-empty and `add_category` succeeds
(bucket.py lines 138-147 and 166-177). -/
def create_category_loop : Nat → World → Option (String × World)
  | 0, _ => none
  | fuel + 1, w =>
    match readInput .newCategoryName w with
    | none => none
    | some (line, w₁) =>
      let category := pyStrip line
      if category = "" then create_category_loop fuel w₁
      else
        match add_category category w₁ with
        | none => none
        | some (ok, w₂) =>
          if ok then some (category, w₂)
          else create_category_loop fuel w₂

/-- The `while True` loop of `select_subcategory` that prompts for a new
subcategory name until the name is non-empty and `add_subcategory` succeeds
(bucket.py lines 188-197 and 213-222). -/
def create_subcategory_loop : Nat → String → World → Option (String × World)
  | 0, _, _ => none
  | fuel + 1, category, w =>
    match readInput .newSubcategoryName w with
    | none => none
    | some (line, w₁) =>
      let subcategory := pyStrip line
      if subcategory = "" then create_subcategory_loop fuel category w₁
      else
        match add_subcategory category subcategory w₁ with
        | none => none
        | some (ok, w₂) =>
          if ok then some (subcategory, w₂)
          else create_subcategory_loop fuel category w₂

/-- The numbered-menu loop of `select_subcategory` (bucket.py lines 199-226):
an in-range choice returns that subcategory, the last number enters the
create loop, anything else re-prompts. -/
def selectSubLoop : Nat → String → List String → World → Option (String × World)
  | 0, _, _, _ => none
  | fuel + 1, category, subcategories, w =>
    match readInput .selectionMenu w with
    | none => none
    | some (line, w₁) =>
      match pyParseInt (pyStrip line) with
      | none => selectSubLoop fuel category subcategories w₁
      | some n =>
        if 1 ≤ n ∧ n ≤ (subcategories.length : Int) then
          match subcategories.get? (n.toNat - 1) with
          | none => none
          | some sub => some (sub, w₁)
        else if n = (subcategories.length : Int) + 1 then
          create_subcategory_loop fuel category w₁
        else selectSubLoop fuel category subcategories w₁

/-- `select_subcategory` from bucket.py: with no existing subcategories the
create loop is mandatory; otherwise the numbered menu runs. -/
def select_subcategory (fuel : Nat) (category : String)
    (subcategories : List String) (w : World) : Option (String × World) :=
  if subcategories.isEmpty then create_subcategory_loop fuel category w
  else selectSubLoop fuel category subcategories w

/-- The numbered-menu loop of `select_category` (bucket.py lines 149-181).
Returns the resolved pair, the snapshot as amended by the run (the Python
code mutates the `categories` dict in place), and the final world. -/
def selectCatLoop : Nat → Snapshot → World →
    Option (String × String × Snapshot × World)
  | 0, _, _ => none
  | fuel + 1, categories, w =>
    match readInput .selectionMenu w with
    | none => none
    | some (line, w₁) =>
      match pyParseInt (pyStrip line) with
      | none => selectCatLoop fuel categories w₁
      | some n =>
        if 1 ≤ n ∧ n ≤ (categories.length : Int) then
          match categories.get? (n.toNat - 1) with
          | none => none
          | some sel =>
            match select_subcategory fuel sel.1 sel.2 w₁ with
            | none => none
            | some (sub, w₂) => some (sel.1, sub, categories, w₂)
        else if n = (categories.length : Int) + 1 then
          match create_category_loop fuel w₁ with
          | none => none
          | some (newCat, w₂) =>
            match select_subcategory fuel newCat [] w₂ with
            | none => none
            | some (sub, w₃) => some (newCat, sub, dictSet categories newCat [], w₃)
        else selectCatLoop fuel categories w₁

/-- `select_category` from bucket.py: with an empty snapshot, category
creation is mandatory and the snapshot is left untouched (the empty branch
performs no dict assignment); otherwise the numbered menu runs. -/
def select_category (fuel : Nat) (categories : Snapshot) (w : World) :
    Option (String × String × Snapshot × World) :=
  if categories.isEmpty then
    match create_category_loop fuel w with
    | none => none
    | some (category, w₁) =>
      match select_subcategory fuel category [] w₁ with
      | none => none
      | some (sub, w₂) => some (category, sub, categories, w₂)
  else selectCatLoop fuel categories w

/-! ## Helper lemmas about the resolver loops -/

/-- With no existing subcategories, `select_subcategory` is exactly the
mandatory create loop. -/
theorem select_subcategory_nil (fuel : Nat) (category : String) (w : World) :
    select_subcategory fuel category [] w = create_subcategory_loop fuel category w := by
  simp [select_subcategory]

/-- What a successful run of the category-create loop guarantees: the name is
non-empty, the last remote call is the successful create for that name,
preceded (within the run) only by failed creates of non-empty names, and
every prompt shown was the new-category-name prompt. -/
theorem create_category_loop_spec :
    ∀ fuel w c w', create_category_loop fuel w = some (c, w') →
      c ≠ "" ∧
      ∃ fails ps,
        w'.calls = RCall.addCategory c true :: (fails ++ w.calls) ∧
        (∀ r ∈ fails, ∃ m, m ≠ "" ∧ r = RCall.addCategory m false) ∧
        w'.prompts = ps ++ w.prompts ∧
        (∀ p ∈ ps, p = PromptKind.newCategoryName) := by
  intro fuel
  induction fuel with
  | zero =>
    intro w c w' h
    simp [create_category_loop] at h
  | succ fuel ih =>
    intro w c w' h
    rw [create_category_loop] at h
    cases hin : w.inputs with
    | nil => simp [readInput, hin] at h
    | cons line rest =>
      simp only [readInput, hin] at h
      by_cases hc : pyStrip line = ""
      · rw [if_pos hc] at h
        obtain ⟨hne, fails, ps, hcalls, hfails, hprompts, hps⟩ := ih _ _ _ h
        refine ⟨hne, fails, ps ++ [PromptKind.newCategoryName], ?_, hfails, ?_, ?_⟩
        · simpa using hcalls
        · simp only [World.prompts] at hprompts
          rw [hprompts]
          simp
        · intro p hp
          rcases List.mem_append.mp hp with hp | hp
          · exact hps p hp
          · simpa using hp
      · rw [if_neg hc] at h
        simp only [add_category] at h
        cases hrep : w.replies with
        | nil => simp [hrep] at h
        | cons ok rrest =>
          simp only [hrep] at h
          cases ok with
          | true =>
            simp only [if_pos] at h
            obtain ⟨hcl, hwl⟩ := Prod.mk.injEq .. ▸ Option.some.injEq .. ▸ h
            refine ⟨hcl ▸ hc, [], [PromptKind.newCategoryName], ?_, ?_, ?_, ?_⟩
            · rw [← hwl, ← hcl]; simp
            · simp
            · rw [← hwl]; simp
            · simp
          | false =>
            simp only [Bool.false_eq_true, if_neg, ite_false] at h
            obtain ⟨hne, fails, ps, hcalls, hfails, hprompts, hps⟩ := ih _ _ _ h
            refine ⟨hne, fails ++ [RCall.addCategory (pyStrip line) false],
              ps ++ [PromptKind.newCategoryName], ?_, ?_, ?_, ?_⟩
            · simp only [World.calls] at hcalls
              rw [hcalls]
              simp
            · intro r hr
              rcases List.mem_append.mp hr with hr | hr
              · exact hfails r hr
              · exact ⟨pyStrip line, hc, by simpa using hr⟩
            · simp only [World.prompts] at hprompts
              rw [hprompts]
              simp
            · intro p hp
              rcases List.mem_append.mp hp with hp | hp
              · exact hps p hp
              · simpa using hp

/-- What a successful run of the subcategory-create loop guarantees,
mirroring `create_category_loop_spec`. -/
theorem create_subcategory_loop_spec :
    ∀ fuel cat w s w', create_subcategory_loop fuel cat w = some (s, w') →
      s ≠ "" ∧
      ∃ fails ps,
        w'.calls = RCall.addSubcategory cat s true :: (fails ++ w.calls) ∧
        (∀ r ∈ fails, ∃ m, m ≠ "" ∧ r = RCall.addSubcategory cat m false) ∧
        w'.prompts = ps ++ w.prompts ∧
        (∀ p ∈ ps, p = PromptKind.newSubcategoryName) := by
  intro fuel
  induction fuel with
  | zero =>
    intro cat w s w' h
    simp [create_subcategory_loop] at h
  | succ fuel ih =>
    intro cat w s w' h
    rw [create_subcategory_loop] at h
    cases hin : w.inputs with
    | nil => simp [readInput, hin] at h
    | cons line rest =>
      simp only [readInput, hin] at h
      by_cases hc : pyStrip line = ""
      · rw [if_pos hc] at h
        obtain ⟨hne, fails, ps, hcalls, hfails, hprompts, hps⟩ := ih _ _ _ _ h
        refine ⟨hne, fails, ps ++ [PromptKind.newSubcategoryName], ?_, hfails, ?_, ?_⟩
        · simpa using hcalls
        · simp only [World.prompts] at hprompts
          rw [hprompts]
          simp
        · intro p hp
          rcases List.mem_append.mp hp with hp | hp
          · exact hps p hp
          · simpa using hp
      · rw [if_neg hc] at h
        simp only [add_subcategory] at h
        cases hrep : w.replies with
        | nil => simp [hrep] at h
        | cons ok rrest =>
          simp only [hrep] at h
          cases ok with
          | true =>
            simp only [if_pos] at h
            obtain ⟨hcl, hwl⟩ := Prod.mk.injEq .. ▸ Option.some.injEq .. ▸ h
            refine ⟨hcl ▸ hc, [], [PromptKind.newSubcategoryName], ?_, ?_, ?_, ?_⟩
            · rw [← hwl, ← hcl]; simp
            · simp
            · rw [← hwl]; simp
            · simp
          | false =>
            simp only [Bool.false_eq_true, if_neg, ite_false] at h
            obtain ⟨hne, fails, ps, hcalls, hfails, hprompts, hps⟩ := ih _ _ _ _ h
            refine ⟨hne, fails ++ [RCall.addSubcategory cat (pyStrip line) false],
              ps ++ [PromptKind.newSubcategoryName], ?_, ?_, ?_, ?_⟩
            · simp only [World.calls] at hcalls
              rw [hcalls]
              simp
            · intro r hr
              rcases List.mem_append.mp hr with hr | hr
              · exact hfails r hr
              · exact ⟨pyStrip line, hc, by simpa using hr⟩
            · simp only [World.prompts] at hprompts
              rw [hprompts]
              simp
            · intro p hp
              rcases List.mem_append.mp hp with hp | hp
              · exact hps p hp
              · simpa using hp

/-- What a successful run of the subcategory menu loop guarantees: either an
existing subcategory was selected and no remote call was made, or a new
non-empty one was created with a successful remote call on top of the call
log. -/
theorem selectSubLoop_spec :
    ∀ fuel cat subs w s w', selectSubLoop fuel cat subs w = some (s, w') →
      (s ∈ subs ∧ w'.calls = w.calls)
      ∨ (s ≠ "" ∧ ∃ fails,
          w'.calls = RCall.addSubcategory cat s true :: (fails ++ w.calls)) := by
  intro fuel
  induction fuel with
  | zero =>
    intro cat subs w s w' h
    simp [selectSubLoop] at h
  | succ fuel ih =>
    intro cat subs w s w' h
    rw [selectSubLoop] at h
    cases hin : w.inputs with
    | nil => simp [readInput, hin] at h
    | cons line rest =>
      simp only [readInput, hin] at h
      cases hpi : pyParseInt (pyStrip line) with
      | none =>
        simp only [hpi] at h
        rcases ih _ _ _ _ _ h with ⟨hm, hc⟩ | ⟨hne, fails, hc⟩
        · exact Or.inl ⟨hm, by simpa using hc⟩
        · exact Or.inr ⟨hne, fails, by simpa using hc⟩
      | some n =>
        simp only [hpi] at h
        by_cases hrange : 1 ≤ n ∧ n ≤ (subs.length : Int)
        · rw [if_pos hrange] at h
          split at h
          · simp at h
          next sub hget =>
            obtain ⟨hs, hw⟩ := Prod.mk.injEq .. ▸ Option.some.injEq .. ▸ h
            refine Or.inl ⟨hs ▸ List.get?_mem hget, ?_⟩
            rw [← hw]
        · rw [if_neg hrange] at h
          by_cases hcreate : n = (subs.length : Int) + 1
          · rw [if_pos hcreate] at h
            obtain ⟨hne, fails, ps, hcalls, _, _, _⟩ :=
              create_subcategory_loop_spec _ _ _ _ _ h
            exact Or.inr ⟨hne, fails, by simpa using hcalls⟩
          · rw [if_neg hcreate] at h
            rcases ih _ _ _ _ _ h with ⟨hm, hc⟩ | ⟨hne, fails, hc⟩
            · exact Or.inl ⟨hm, by simpa using hc⟩
            · exact Or.inr ⟨hne, fails, by simpa using hc⟩

/-- What a successful run of `select_subcategory` guarantees. -/
theorem select_subcategory_spec (fuel : Nat) (cat : String) (subs : List String)
    (w : World) (s : String) (w' : World)
    (h : select_subcategory fuel cat subs w = some (s, w')) :
    (s ∈ subs ∧ w'.calls = w.calls)
    ∨ (s ≠ "" ∧ ∃ fails,
        w'.calls = RCall.addSubcategory cat s true :: (fails ++ w.calls)) := by
  unfold select_subcategory at h
  by_cases hemp : subs.isEmpty
  · rw [if_pos hemp] at h
    obtain ⟨hne, fails, ps, hcalls, _, _, _⟩ :=
      create_subcategory_loop_spec _ _ _ _ _ h
    exact Or.inr ⟨hne, fails, hcalls⟩
  · rw [if_neg hemp] at h
    exact selectSubLoop_spec _ _ _ _ _ _ h

/-- What a successful run of the category menu loop guarantees: either an
existing pair was selected (snapshot unchanged; the subcategory was either in
that category's list or successfully created remotely), or a new category was
entered into the snapshot by dict assignment after a successful remote
create, followed by a mandatory successful subcategory create. -/
theorem selectCatLoop_cases :
    ∀ fuel cats w c s cats' w',
      selectCatLoop fuel cats w = some (c, s, cats', w') →
      (cats' = cats ∧ ∃ subs, (c, subs) ∈ cats ∧
          (s ∈ subs ∨ RCall.addSubcategory c s true ∈ w'.calls))
      ∨ (cats' = dictSet cats c [] ∧ RCall.addCategory c true ∈ w'.calls ∧
          RCall.addSubcategory c s true ∈ w'.calls) := by
  intro fuel
  induction fuel with
  | zero =>
    intro cats w c s cats' w' h
    simp [selectCatLoop] at h
  | succ fuel ih =>
    intro cats w c s cats' w' h
    rw [selectCatLoop] at h
    cases hin : w.inputs with
    | nil => simp [readInput, hin] at h
    | cons line rest =>
      simp only [readInput, hin] at h
      cases hpi : pyParseInt (pyStrip line) with
      | none =>
        simp only [hpi] at h
        exact ih _ _ _ _ _ _ h
      | some n =>
        simp only [hpi] at h
        by_cases hrange : 1 ≤ n ∧ n ≤ (cats.length : Int)
        · rw [if_pos hrange] at h
          split at h
          · simp at h
          next sel hget =>
            split at h
            · simp at h
            next sub w₂ hsub =>
              simp only [Option.some.injEq, Prod.mk.injEq] at h
              obtain ⟨hc, hs, hcats, hw⟩ := h
              subst hc hs hcats hw
              rcases select_subcategory_spec _ _ _ _ _ _ hsub with
                ⟨hm, _⟩ | ⟨_, fails, hcalls⟩
              · exact Or.inl ⟨rfl, sel.2,
                  by simpa using List.get?_mem hget, Or.inl hm⟩
              · refine Or.inl ⟨rfl, sel.2,
                  by simpa using List.get?_mem hget, Or.inr ?_⟩
                rw [hcalls]
                exact List.mem_cons_self _ _
        · rw [if_neg hrange] at h
          by_cases hcreate : n = (cats.length : Int) + 1
          · rw [if_pos hcreate] at h
            split at h
            · simp at h
            next newCat w₂ hccl =>
              split at h
              · simp at h
              next sub w₃ hsub =>
                simp only [Option.some.injEq, Prod.mk.injEq] at h
                obtain ⟨hc, hs, hcats, hw⟩ := h
                subst hc hs hcats hw
                obtain ⟨-, fails, ps, hcalls1, -, -, -⟩ :=
                  create_category_loop_spec _ _ _ _ hccl
                rw [select_subcategory_nil] at hsub
                obtain ⟨-, fails2, ps2, hcalls2, -, -, -⟩ :=
                  create_subcategory_loop_spec _ _ _ _ _ hsub
                refine Or.inr ⟨rfl, ?_, ?_⟩
                · rw [hcalls2, hcalls1]
                  exact List.mem_cons_of_mem _
                    (List.mem_append_right _ (List.mem_cons_self _ _))
                · rw [hcalls2]
                  exact List.mem_cons_self _ _
          · rw [if_neg hcreate] at h
            exact ih _ _ _ _ _ _ h

/-- Case analysis of a completed `select_category` run: selection of an
existing pair leaves the snapshot unchanged; with an empty snapshot the
mandatory creations happen but the snapshot stays empty (the empty branch
performs no dict assignment); with a non-empty snapshot the Add-New branch
enters the new category by dict assignment after a successful remote create. -/
theorem select_category_cases :
    ∀ fuel cats w c s cats' w',
      select_category fuel cats w = some (c, s, cats', w') →
      (cats' = cats ∧ ∃ subs, (c, subs) ∈ cats ∧
          (s ∈ subs ∨ RCall.addSubcategory c s true ∈ w'.calls))
      ∨ (cats = [] ∧ cats' = [] ∧ RCall.addCategory c true ∈ w'.calls ∧
          RCall.addSubcategory c s true ∈ w'.calls)
      ∨ (cats ≠ [] ∧ cats' = dictSet cats c [] ∧
          RCall.addCategory c true ∈ w'.calls ∧
          RCall.addSubcategory c s true ∈ w'.calls) := by
  intro fuel cats w c s cats' w' h
  unfold select_category at h
  by_cases hemp : cats.isEmpty
  · have hnil : cats = [] := List.isEmpty_iff.mp hemp
    rw [if_pos hemp] at h
    split at h
    · simp at h
    next cat0 w₁ hccl =>
      split at h
      · simp at h
      next sub w₂ hsub =>
        simp only [Option.some.injEq, Prod.mk.injEq] at h
        obtain ⟨hc, hs, hcats, hw⟩ := h
        subst hc hs hcats hw
        obtain ⟨-, fails, ps, hcalls1, -, -, -⟩ :=
          create_category_loop_spec _ _ _ _ hccl
        rw [select_subcategory_nil] at hsub
        obtain ⟨-, fails2, ps2, hcalls2, -, -, -⟩ :=
          create_subcategory_loop_spec _ _ _ _ _ hsub
        refine Or.inr (Or.inl ⟨hnil, hnil, ?_, ?_⟩)
        · rw [hcalls2, hcalls1]
          exact List.mem_cons_of_mem _
            (List.mem_append_right _ (List.mem_cons_self _ _))
        · rw [hcalls2]
          exact List.mem_cons_self _ _
  · have hne : cats ≠ [] := by simpa [List.isEmpty_iff] using hemp
    rw [if_neg hemp] at h
    rcases selectCatLoop_cases _ _ _ _ _ _ _ h with hsel | hnew
    · exact Or.inl hsel
    · exact Or.inr (Or.inr ⟨hne, hnew.1, hnew.2.1, hnew.2.2⟩)

/-- The key of a dict assignment is among the keys afterwards. -/
theorem mem_keys_dictSet (m : Snapshot) (k : String) (v : List String) :
    k ∈ keys (dictSet m k v) := by
  unfold dictSet keys
  by_cases h : m.any (fun p => p.1 = k)
  · rw [if_pos h]
    rcases List.any_eq_true.mp h with ⟨p, hp, hpk⟩
    have hpk' : p.1 = k := by simpa using hpk
    exact List.mem_map.mpr ⟨(k, v), List.mem_map.mpr ⟨p, hp, by simp [hpk']⟩, rfl⟩
  · rw [if_neg h]
    simp

/-- Dict assignment with a fresh key appends the new pair. -/
theorem dictSet_of_not_mem_keys (m : Snapshot) (k : String) (v : List String)
    (h : k ∉ keys m) : dictSet m k v = m ++ [(k, v)] := by
  unfold dictSet
  rw [if_neg]
  intro hany
  rcases List.any_eq_true.mp hany with ⟨p, hp, hpk⟩
  have hpk' : p.1 = k := by simpa using hpk
  exact h (List.mem_map.mpr ⟨p, hp, hpk'⟩)

/-! ## Spec-side definitions (for refinement comparison only) -/

/-- Modelled from the spec's words "strip trailing whitespace": remove only
trailing whitespace from the body. -/
def stripTrailingSpec (s : String) : String :=
  String.mk ((s.toList.reverse.dropWhile isPySpace).reverse)

/-- Modelled from the spec's words: remove only leading whitespace. -/
def stripLeadingSpec (s : String) : String :=
  String.mk (s.toList.dropWhile isPySpace)

/-! ## Claims about the reconciliation engine -/

/-- Both components of a resolved pair are present in a snapshot: the
category is a key and the subcategory is in that category's list. -/
def pairInSnapshot (c s : String) (m : Snapshot) : Bool :=
  m.any (fun p => p.1 = c && p.2.contains s)

/-- A pair of a snapshot with a member subcategory makes `pairInSnapshot`
true. -/
theorem pairInSnapshot_of_mem {c s : String} {subs : List String}
    {m : Snapshot} (hm : (c, subs) ∈ m) (hs : s ∈ subs) :
    pairInSnapshot c s m = true := by
  unfold pairInSnapshot
  refine List.any_eq_true.mpr ⟨(c, subs), hm, ?_⟩
  simpa using hs

/-! ## Claims about the taxonomy resolver -/

/-- C1 counterexample: selecting the existing category "Food" (which has no
subcategories) forces creation of a subcategory; the run returns
("Food", "Groceries") after a successful remote create, but the snapshot at
the moment of return still maps "Food" to the empty list, so the returned
subcategory is absent from the snapshot. -/
theorem select_category_pair_absent_cex :
    select_category 5 [("Food", [])] ⟨["1", "Groceries"], [true], [], []⟩
      = some ("Food", "Groceries", [("Food", [])],
          ⟨[], [], [RCall.addSubcategory "Food" "Groceries" true],
            [PromptKind.newSubcategoryName, PromptKind.selectionMenu]⟩)
    ∧ pairInSnapshot "Food" "Groceries" [("Food", [])] = false :=
  ⟨rfl, rfl⟩

/-- C1 amended: whenever the resolver returns, each component of the returned
pair is either present in the (possibly locally-amended) snapshot at the
moment of return, or was the subject of a successful remote create call
during the run (the code never appends a created subcategory to the local
snapshot, and the empty-snapshot branch never appends the created category). -/
theorem select_category_pair_present_or_created :
    ∀ fuel cats w c s cats' w',
      select_category fuel cats w = some (c, s, cats', w') →
      (c ∈ keys cats' ∨ RCall.addCategory c true ∈ w'.calls) ∧
      (pairInSnapshot c s cats' = true ∨
        RCall.addSubcategory c s true ∈ w'.calls) := by
  intro fuel cats w c s cats' w' h
  rcases select_category_cases _ _ _ _ _ _ _ h with
    ⟨hcats, subs, hmem, hsub⟩ | ⟨hnil, hnil', hcat, hsub⟩ | ⟨-, hcats, hcat, hsub⟩
  · subst hcats
    refine ⟨Or.inl (List.mem_map.mpr ⟨(c, subs), hmem, rfl⟩), ?_⟩
    rcases hsub with hs | hs
    · exact Or.inl (pairInSnapshot_of_mem hmem hs)
    · exact Or.inr hs
  · exact ⟨Or.inr hcat, Or.inr hsub⟩
  · subst hcats
    exact ⟨Or.inl (mem_keys_dictSet _ _ _), Or.inr hsub⟩

/-- C1 amended, witness: a pure selection run on the snapshot
Food -> [Groceries]. -/
theorem select_category_pair_present_or_created_witness :
    (select_category 3 [("Food", ["Groceries"])] ⟨["1", "1"], [], [], []⟩
      = some ("Food", "Groceries", [("Food", ["Groceries"])],
          ⟨[], [], [], [PromptKind.selectionMenu, PromptKind.selectionMenu]⟩))
    ∧ ("Food" ∈ keys [("Food", ["Groceries"])]
        ∨ RCall.addCategory "Food" true ∈ ([] : List RCall)) :=
  ⟨rfl,
    (select_category_pair_present_or_created 3 [("Food", ["Groceries"])]
      ⟨["1", "1"], [], [], []⟩ "Food" "Groceries" [("Food", ["Groceries"])]
      ⟨[], [], [], [PromptKind.selectionMenu, PromptKind.selectionMenu]⟩ rfl).1⟩

/-- C5: on an empty snapshot the resolver offers no selection menu; it
returns only after a successful remote add-category call for the non-empty
category name and then a successful remote add-subcategory call for the
non-empty subcategory name, any earlier calls of the run being failed
creates (the call log is most recent first). -/
theorem select_category_empty_mandatory_create :
    ∀ fuel w c s cats' w',
      select_category fuel [] w = some (c, s, cats', w') →
      c ≠ "" ∧ s ≠ "" ∧
      ∃ subFails catFails ps,
        w'.calls = RCall.addSubcategory c s true ::
          (subFails ++ RCall.addCategory c true :: (catFails ++ w.calls)) ∧
        (∀ r ∈ subFails, ∃ m, m ≠ "" ∧ r = RCall.addSubcategory c m false) ∧
        (∀ r ∈ catFails, ∃ m, m ≠ "" ∧ r = RCall.addCategory m false) ∧
        w'.prompts = ps ++ w.prompts ∧
        (∀ p ∈ ps, p ≠ PromptKind.selectionMenu) := by
  intro fuel w c s cats' w' h
  unfold select_category at h
  simp only [List.isEmpty_nil, if_true] at h
  split at h
  · simp at h
  next cat0 w₁ hccl =>
    split at h
    · simp at h
    next sub w₂ hsub =>
      simp only [Option.some.injEq, Prod.mk.injEq] at h
      obtain ⟨hc, hs, hcats, hw⟩ := h
      subst hc hs hcats hw
      obtain ⟨hcne, fails1, ps1, hcalls1, hfails1, hprompts1, hps1⟩ :=
        create_category_loop_spec _ _ _ _ hccl
      rw [select_subcategory_nil] at hsub
      obtain ⟨hsne, fails2, ps2, hcalls2, hfails2, hprompts2, hps2⟩ :=
        create_subcategory_loop_spec _ _ _ _ _ hsub
      refine ⟨hcne, hsne, fails2, fails1, ps2 ++ ps1, ?_, hfails2, hfails1, ?_, ?_⟩
      · rw [hcalls2, hcalls1]
      · rw [hprompts2, hprompts1, List.append_assoc]
      · intro p hp
        rcases List.mem_append.mp hp with hp | hp
        · rw [hps2 p hp]; simp
        · rw [hps1 p hp]; simp

/-- C5 witness: the spec's own scenario (create "Travel", then "Flights"). -/
theorem select_category_empty_mandatory_create_witness :
    (select_category 3 [] ⟨["Travel", "Flights"], [true, true], [], []⟩
      = some ("Travel", "Flights", [],
          ⟨[], [], [RCall.addSubcategory "Travel" "Flights" true,
                    RCall.addCategory "Travel" true],
            [PromptKind.newSubcategoryName, PromptKind.newCategoryName]⟩))
    ∧ "Travel" ≠ "" :=
  ⟨rfl,
    (select_category_empty_mandatory_create 3
      ⟨["Travel", "Flights"], [true, true], [], []⟩ "Travel" "Flights" []
      ⟨[], [], [RCall.addSubcategory "Travel" "Flights" true,
                RCall.addCategory "Travel" true],
        [PromptKind.newSubcategoryName, PromptKind.newCategoryName]⟩ rfl).1⟩

/-- C6 counterexample: on the empty snapshot the remote add-category call for
"Travel" succeeds (it is in the call log), yet the snapshot returned is still
empty — the empty-snapshot branch of `select_category` performs no local
append. -/
theorem select_category_create_no_append_cex :
    (select_category 4 [] ⟨["Travel", "Flights"], [true, true], [], []⟩
      = some ("Travel", "Flights", [],
          ⟨[], [], [RCall.addSubcategory "Travel" "Flights" true,
                    RCall.addCategory "Travel" true],
            [PromptKind.newSubcategoryName, PromptKind.newCategoryName]⟩))
    ∧ "Travel" ∉ keys ([] : Snapshot) :=
  ⟨rfl, by simp [keys]⟩

/-- C6 amended: after a successful remote add-category call, the snapshot is
updated only in the Add-New branch of the non-empty menu (where a fresh name
is appended with an empty subcategory list by dict assignment); the
empty-snapshot branch leaves the snapshot unchanged. In both branches the
resolver then performs mandatory subcategory creation for the new category,
witnessed by the successful add-subcategory call for it. -/
theorem select_category_create_snapshot_update :
    (∀ fuel w c s cats' w',
        select_category fuel [] w = some (c, s, cats', w') →
        cats' = [] ∧ RCall.addCategory c true ∈ w'.calls ∧
          RCall.addSubcategory c s true ∈ w'.calls)
    ∧ (∀ fuel cats w c s cats' w', cats ≠ [] →
        select_category fuel cats w = some (c, s, cats', w') →
        c ∉ keys cats →
        cats' = cats ++ [(c, [])] ∧ RCall.addCategory c true ∈ w'.calls ∧
          RCall.addSubcategory c s true ∈ w'.calls) := by
  constructor
  · intro fuel w c s cats' w' h
    rcases select_category_cases _ _ _ _ _ _ _ h with
      ⟨-, subs, hmem, -⟩ | ⟨-, hnil', hcat, hsub⟩ | ⟨hne, -, -, -⟩
    · exact absurd hmem (List.not_mem_nil _)
    · exact ⟨hnil', hcat, hsub⟩
    · exact absurd rfl hne
  · intro fuel cats w c s cats' w' hne h hfresh
    rcases select_category_cases _ _ _ _ _ _ _ h with
      ⟨-, subs, hmem, -⟩ | ⟨hnil, -, -, -⟩ | ⟨-, hcats, hcat, hsub⟩
    · exact absurd (List.mem_map.mpr ⟨(c, subs), hmem, rfl⟩) hfresh
    · exact absurd hnil hne
    · exact ⟨hcats.trans (dictSet_of_not_mem_keys _ _ _ hfresh), hcat, hsub⟩

/-- C6 amended, witness: Add-New on the snapshot Food -> [G] appends
("Travel", []). -/
theorem select_category_create_snapshot_update_witness :
    ([("Food", ["G"]), ("Travel", [])] : Snapshot)
      = [("Food", ["G"])] ++ [("Travel", ([] : List String))] :=
  (select_category_create_snapshot_update.2 4 [("Food", ["G"])]
    ⟨["2", "Travel", "Flights"], [true, true], [], []⟩ "Travel" "Flights"
    [("Food", ["G"]), ("Travel", [])]
    ⟨[], [], [RCall.addSubcategory "Travel" "Flights" true,
              RCall.addCategory "Travel" true],
      [PromptKind.newSubcategoryName, PromptKind.newCategoryName,
        PromptKind.selectionMenu]⟩
    (by simp) rfl (by simp [keys])).1

/-- C7: when the remote add-category call reports failure, the create loop
re-prompts for a name in the same state, having only consumed the input line
and the reply and logged the failed call and the name prompt; and a completed
resolver run that made no successful add-category call returns the snapshot
unchanged. -/
theorem create_category_failure_reprompt :
    (∀ fuel w line rest rrest,
        w.inputs = line :: rest → w.replies = false :: rrest →
        pyStrip line ≠ "" →
        create_category_loop (fuel + 1) w
          = create_category_loop fuel
              ⟨rest, rrest, RCall.addCategory (pyStrip line) false :: w.calls,
                PromptKind.newCategoryName :: w.prompts⟩)
    ∧ (∀ fuel cats w c s cats' w',
        select_category fuel cats w = some (c, s, cats', w') →
        (∀ m, RCall.addCategory m true ∉ w'.calls) →
        cats' = cats) := by
  constructor
  · intro fuel w line rest rrest hin hrep hne
    rw [create_category_loop]
    simp only [readInput, hin]
    rw [if_neg hne]
    simp only [add_category, hrep]
    simp
  · intro fuel cats w c s cats' w' h hno
    rcases select_category_cases _ _ _ _ _ _ _ h with
      ⟨hc, -⟩ | ⟨hnil, hnil', -, -⟩ | ⟨-, -, hmem, -⟩
    · exact hc
    · rw [hnil, hnil']
    · exact absurd hmem (hno c)

/-- C7 witness: a concrete failed create consumes one input and one reply and
loops; and a concrete pure-selection run leaves the snapshot unchanged. -/
theorem create_category_failure_reprompt_witness :
    (create_category_loop 3 ⟨["Travel", "x"], [false], [], []⟩
      = create_category_loop 2
          ⟨["x"], [], [RCall.addCategory "Travel" false],
            [PromptKind.newCategoryName]⟩)
    ∧ ([("Food", ["Groceries"])] : Snapshot) = [("Food", ["Groceries"])] :=
  ⟨create_category_failure_reprompt.1 2 ⟨["Travel", "x"], [false], [], []⟩
      "Travel" ["x"] [] rfl rfl (by decide),
    create_category_failure_reprompt.2 3 [("Food", ["Groceries"])]
      ⟨["1", "1"], [], [], []⟩ "Food" "Groceries" [("Food", ["Groceries"])]
      ⟨[], [], [], [PromptKind.selectionMenu, PromptKind.selectionMenu]⟩ rfl
      (by simp)⟩

/-- C2: in every reconciliation run of each of the three content kinds, if
the normalized content read back from the editor equals the original content
the engine computed from the fetch, then the outcome is No-Change and no
PUT/replace call is issued. -/
theorem reconcile_no_change_no_put :
    (∀ ty b env raw, env.seed = .ok → env.editResult = some raw →
        normalizeBody raw = normalizeBody b →
        (read_entry ty 200 b env).1 = .noChange ∧
          ∀ p, Ev.putCall p ∉ (read_entry ty 200 b env).2)
    ∧ (∀ b env raw, env.seed = .ok → env.editResult = some raw →
        normalizeBody raw = normalizeBody b →
        (edit_transactions 200 b env).1 = .noChange ∧
          ∀ p, Ev.putCall p ∉ (edit_transactions 200 b env).2)
    ∧ (∀ t j env raw, env.seed = .ok → env.editResult = some raw →
        pyStrip raw = Json.dumps 0 j →
        (edit_categories 200 t (some j) env).1 = .noChange ∧
          ∀ p, Ev.putCall p ∉ (edit_categories 200 t (some j) env).2) := by
  refine ⟨?_, ?_, ?_⟩
  · intro ty b env raw hs he hq
    simp [read_entry, hs, he, hq]
  · intro b env raw hs he hq
    simp [edit_transactions, hs, he, hq]
  · intro t j env raw hs he hq
    simp [edit_categories, hs, he, hq]

/-- C2 witness: a concrete no-change run of `read_entry`. -/
theorem reconcile_no_change_no_put_witness :
    (read_entry "task" 200 "a "
        ⟨.ok, some " a", "y", false, 200, ""⟩).1 = Outcome.noChange :=
  (reconcile_no_change_no_put.1 "task" "a "
    ⟨.ok, some " a", "y", false, 200, ""⟩ " a" rfl rfl (by decide)).1

/-- C3 (failing input): if the fetch succeeds, the temp file is created, and
the seeding write to it raises, the `with` block creating the file sits
outside the `try/finally` that unlinks it, so the file still exists when
`read_entry` returns. This contradicts the claim that the temp file is gone
on every outcome. -/
theorem read_entry_tempfile_leak :
    read_entry "task" 200 "hello" ⟨.writeFail, some "hello", "", false, 200, ""⟩
      = (.editFailure, [.tmpCreate]) ∧
    tmpExistsAfter (read_entry "task" 200 "hello"
        ⟨.writeFail, some "hello", "", false, 200, ""⟩).2 = true := by
  exact ⟨rfl, rfl⟩

/-- C4: a non-success fetch status makes each of the three reconciliation
operations report a Fetch Failure carrying the status and body verbatim and
return with an empty event trace: no temp file, no editor launch, no PUT. -/
theorem reconcile_fetch_failure_aborts :
    (∀ ty st b env, st ≠ 200 →
        read_entry ty st b env = (.fetchFailure st b, []))
    ∧ (∀ st b env, st ≠ 200 →
        edit_transactions st b env = (.fetchFailure st b, []))
    ∧ (∀ st t j env, st ≠ 200 →
        edit_categories st t j env = (.fetchFailure st t, [])) := by
  refine ⟨?_, ?_, ?_⟩
  · intro ty st b env h
    simp [read_entry, h]
  · intro st b env h
    simp [edit_transactions, h]
  · intro st t j env h
    simp [edit_categories, h]

/-- C4 witness: a concrete 404 fetch. -/
theorem reconcile_fetch_failure_aborts_witness :
    read_entry "note" 404 "missing" ⟨.ok, some "x", "y", false, 200, ""⟩
      = (Outcome.fetchFailure 404 "missing", []) :=
  reconcile_fetch_failure_aborts.1 "note" 404 "missing"
    ⟨.ok, some "x", "y", false, 200, ""⟩ (by decide)

/-- C8 counterexample: the engine's normalization is Python `str.strip()`,
which also removes leading whitespace, so `original_content` is not the body
with only trailing whitespace removed: the body " x" becomes "x". -/
theorem normalizeBody_not_trailing_only_cex :
    ¬ normalizeBody " x" = stripTrailingSpec " x" := by
  decide

/-- C8 amended: the fetched body is normalized by removing both leading and
trailing whitespace (and the content read back after editing is normalized by
the same `normalizeBody`). -/
theorem normalizeBody_strips_both_ends :
    ∀ b, normalizeBody b = stripTrailingSpec (stripLeadingSpec b) := by
  intro b
  rfl

/-- C9: every PUT issued by a reconciliation run has the payload shape of its
content kind: `read_entry` sends the object with fields `type` and `content`,
`edit_transactions` and `edit_categories` send the object with the single
field `content`; in each case `content` is the normalized read-back text. -/
theorem reconcile_put_payload_shape :
    (∀ ty st b env raw p, env.editResult = some raw →
        Ev.putCall p ∈ (read_entry ty st b env).2 →
        p = .typeContent ty (normalizeBody raw))
    ∧ (∀ st b env raw p, env.editResult = some raw →
        Ev.putCall p ∈ (edit_transactions st b env).2 →
        p = .contentOnly (normalizeBody raw))
    ∧ (∀ st t j env raw p, env.editResult = some raw →
        Ev.putCall p ∈ (edit_categories st t j env).2 →
        p = .contentOnly (pyStrip raw)) := by
  refine ⟨?_, ?_, ?_⟩
  · intro ty st b env raw p he hm
    by_cases hst : st ≠ 200
    · simp [read_entry, hst] at hm
    · cases hs : env.seed <;>
        by_cases hne : normalizeBody b ≠ normalizeBody raw <;>
        by_cases hy : pyLower (pyStrip env.confirmInput) = "y" <;>
        by_cases hr : env.putRaises <;>
        simp_all [read_entry, hs, he, hne, hy, hr]
  · intro st b env raw p he hm
    by_cases hst : st ≠ 200
    · simp [edit_transactions, hst] at hm
    · cases hs : env.seed <;>
        by_cases hne : normalizeBody b ≠ normalizeBody raw <;>
        by_cases hy : pyLower (pyStrip env.confirmInput) = "y" <;>
        by_cases hr : env.putRaises <;>
        simp_all [edit_transactions, hs, he, hne, hy, hr]
  · intro st t j env raw p he hm
    by_cases hst : st ≠ 200
    · simp [edit_categories, hst] at hm
    · cases j with
      | none => simp_all [edit_categories]
      | some jv =>
        cases hs : env.seed <;>
          by_cases hne : Json.dumps 0 jv ≠ pyStrip raw <;>
          by_cases hy : pyLower (pyStrip env.confirmInput) = "y" <;>
          by_cases hr : env.putRaises <;>
          simp_all [edit_categories, hs, he, hne, hy, hr]

/-- C9 witness: a concrete confirmed push of a task record. -/
theorem reconcile_put_payload_shape_witness :
    (Ev.putCall (Payload.typeContent "task" "b")
        ∈ (read_entry "task" 200 "a" ⟨.ok, some "b", " Y ", false, 201, "ok"⟩).2)
    ∧ Payload.typeContent "task" "b"
        = Payload.typeContent "task" (normalizeBody "b") :=
  ⟨by decide,
    reconcile_put_payload_shape.1 "task" 200 "a"
      ⟨.ok, some "b", " Y ", false, 201, "ok"⟩ "b"
      (Payload.typeContent "task" "b") rfl (by decide)⟩

/-- C10: when the diff detects a change, a PUT is issued iff the confirmation
input, stripped and lowercased, is exactly "y"; any other answer yields the
Discarded outcome with no PUT; the confirmation prompt is shown exactly
once (no re-prompt). Stated for all three content kinds. -/
theorem reconcile_confirm_exact_y :
    (∀ ty b env raw, env.seed = .ok → env.editResult = some raw →
        normalizeBody raw ≠ normalizeBody b →
        (((∃ p, Ev.putCall p ∈ (read_entry ty 200 b env).2) ↔
            pyLower (pyStrip env.confirmInput) = "y")
          ∧ (pyLower (pyStrip env.confirmInput) ≠ "y" →
              (read_entry ty 200 b env).1 = .discarded ∧
                ∀ p, Ev.putCall p ∉ (read_entry ty 200 b env).2)
          ∧ (read_entry ty 200 b env).2.count Ev.promptConfirm = 1))
    ∧ (∀ b env raw, env.seed = .ok → env.editResult = some raw →
        normalizeBody raw ≠ normalizeBody b →
        (((∃ p, Ev.putCall p ∈ (edit_transactions 200 b env).2) ↔
            pyLower (pyStrip env.confirmInput) = "y")
          ∧ (pyLower (pyStrip env.confirmInput) ≠ "y" →
              (edit_transactions 200 b env).1 = .discarded ∧
                ∀ p, Ev.putCall p ∉ (edit_transactions 200 b env).2)
          ∧ (edit_transactions 200 b env).2.count Ev.promptConfirm = 1))
    ∧ (∀ t j env raw, env.seed = .ok → env.editResult = some raw →
        pyStrip raw ≠ Json.dumps 0 j →
        (((∃ p, Ev.putCall p ∈ (edit_categories 200 t (some j) env).2) ↔
            pyLower (pyStrip env.confirmInput) = "y")
          ∧ (pyLower (pyStrip env.confirmInput) ≠ "y" →
              (edit_categories 200 t (some j) env).1 = .discarded ∧
                ∀ p, Ev.putCall p ∉ (edit_categories 200 t (some j) env).2)
          ∧ (edit_categories 200 t (some j) env).2.count Ev.promptConfirm = 1)) := by
  refine ⟨?_, ?_, ?_⟩
  · intro ty b env raw hs he hne
    have hne' : normalizeBody b ≠ normalizeBody raw := Ne.symm hne
    by_cases hy : pyLower (pyStrip env.confirmInput) = "y" <;>
      by_cases hr : env.putRaises <;>
      simp [read_entry, hs, he, hne', hy, hr, List.count_cons]
  · intro b env raw hs he hne
    have hne' : normalizeBody b ≠ normalizeBody raw := Ne.symm hne
    by_cases hy : pyLower (pyStrip env.confirmInput) = "y" <;>
      by_cases hr : env.putRaises <;>
      simp [edit_transactions, hs, he, hne', hy, hr, List.count_cons]
  · intro t j env raw hs he hne
    have hne' : Json.dumps 0 j ≠ pyStrip raw := Ne.symm hne
    by_cases hy : pyLower (pyStrip env.confirmInput) = "y" <;>
      by_cases hr : env.putRaises <;>
      simp [edit_categories, hs, he, hne', hy, hr, List.count_cons]

/-- C10 witness: a concrete "yes" answer is not "y", so the change is
discarded. -/
theorem reconcile_confirm_exact_y_witness :
    (read_entry "task" 200 "a" ⟨.ok, some "b", "yes", false, 200, ""⟩).1
      = Outcome.discarded :=
  ((reconcile_confirm_exact_y.1 "task" "a"
      ⟨.ok, some "b", "yes", false, 200, ""⟩ "b" rfl rfl
      (by decide)).2.1 (by decide)).1

end Bucket
